import Mathlib

/-! Verification of the license-issuance script `scripts/generate_license.py`:
key generation, expiration computation, the persist-then-notify workflow, and
the command-line surface, embedded as pure functions over explicit inputs
(environment variables, the random stream, the current time, and the responses
the two HTTP endpoints would give). -/


/-- Century of era (0..3) from day of era, per the standard century-decomposition
conversion from day counts to proleptic-Gregorian civil dates (the arithmetic
behind Python `datetime`'s ordinal-to-date conversion). -/
def cOfDoe (doe : Nat) : Nat := (4 * doe + 3) / 146097

/-- Day within the century from day of era. -/
def dcentOfDoe (doe : Nat) : Nat := doe - 146097 * cOfDoe doe / 4

/-- Year of century (0..99) from day of era. -/
def yofcOfDoe (doe : Nat) : Nat := (4 * dcentOfDoe doe + 3) / 1461

/-- Day of year (March-based, 0..365) from day of era. -/
def doyOfDoe (doe : Nat) : Nat := dcentOfDoe doe - 1461 * yofcOfDoe doe / 4

/-- Year of era (0..399) from day of era. -/
def yoeOfDoe (doe : Nat) : Nat := 100 * cOfDoe doe + yofcOfDoe doe

/-- Shifted month index (0 = March) from day of year. -/
def mpOfDoy (doy : Nat) : Nat := (5 * doy + 2) / 153

/-- Day of month from day of year. -/
def dOfDoy (doy : Nat) : Nat := doy - (153 * mpOfDoy doy + 2) / 5 + 1

/-- Civil month from day of year. -/
def mOfDoy (doy : Nat) : Nat :=
  if mpOfDoy doy < 10 then mpOfDoy doy + 3 else mpOfDoy doy - 9

/-- Civil date (year, month, day) of a day count relative to 1970-01-01. -/
def civilFromDaysZ (z : Int) : Int × Nat × Nat :=
  let era := (z + 719468) / 146097
  let doe := ((z + 719468) % 146097).toNat
  let doy := doyOfDoe doe
  let y : Int := (yoeOfDoe doe : Int) + era * 400
  ((if mOfDoy doy ≤ 2 then y + 1 else y), mOfDoy doy, dOfDoy doy)

/-- Day count relative to 1970-01-01 of a civil date (year, month, day). -/
def daysFromCivilZ (y : Int) (m d : Nat) : Int :=
  let y2 := if m ≤ 2 then y - 1 else y
  let era := y2 / 400
  let yoe : Nat := (y2 % 400).toNat
  let doy := (153 * (if 2 < m then m - 3 else m + 9) + 2) / 5 + d - 1
  let doe := 146097 * (yoe / 100) / 4 + 1461 * (yoe % 100) / 4 + doy
  era * 146097 + (doe : Int) - 719468

/-- Per-day-of-year check that the month/day split inverts. -/
def okB (doy : Nat) : Bool :=
  ((if 2 < mOfDoy doy then mOfDoy doy - 3 else mOfDoy doy + 9) == mpOfDoy doy) &&
    ((153 * mpOfDoy doy + 2) / 5 + dOfDoy doy - 1 == doy) &&
    Nat.ble 1 (mOfDoy doy) && Nat.ble (mOfDoy doy) 12 &&
    Nat.ble 1 (dOfDoy doy) && Nat.ble (dOfDoy doy) 31

/-! Instants and ISO-8601 serialization, modelling `datetime.utcnow() + timedelta` and
`isoformat` / ISO-8601 parsing. An instant is a day count relative to 1970-01-01 plus
the microsecond of the day. -/

/-- A point in time: day ordinal (relative to 1970-01-01) and microsecond of day. -/
structure Instant where
  day : Int
  usod : Nat
deriving DecidableEq

/-- `t + timedelta(days = d)`: same time of day, `d` days later. -/
def addDays (t : Instant) (d : Int) : Instant := ⟨t.day + d, t.usod⟩

/-- Total microseconds relative to the epoch, for comparing instants. -/
def toMicros (t : Instant) : Int := t.day * 86400000000 + t.usod

/-- The decimal digit character for `n < 10`. -/
def digitChar (n : Nat) : Char := Char.ofNat (48 + n)

/-- Numeric value of a digit character. -/
def dv (c : Char) : Nat := c.toNat - 48

/-- Decimal digit test. -/
def isDigitC (c : Char) : Bool := decide ('0' ≤ c) && decide (c ≤ '9')

/-- Two-digit zero-padded decimal (`%02d` for values below 100). -/
def pad2L (n : Nat) : List Char := [digitChar (n / 10 % 10), digitChar (n % 10)]

/-- Four-digit zero-padded decimal (`%04d` for values below 10000). -/
def pad4L (n : Nat) : List Char :=
  [digitChar (n / 1000 % 10), digitChar (n / 100 % 10), digitChar (n / 10 % 10),
    digitChar (n % 10)]

/-- Six-digit zero-padded decimal (`%06d` for values below 1000000). -/
def pad6L (n : Nat) : List Char :=
  [digitChar (n / 100000 % 10), digitChar (n / 10000 % 10), digitChar (n / 1000 % 10),
    digitChar (n / 100 % 10), digitChar (n / 10 % 10), digitChar (n % 10)]

/-- `datetime.isoformat()`: `YYYY-MM-DDTHH:MM:SS` with `.ffffff` appended when the
microsecond field is nonzero. -/
def isoformat (t : Instant) : String :=
  let c := civilFromDaysZ t.day
  let h := t.usod / 3600000000
  let mi := t.usod / 60000000 % 60
  let s := t.usod / 1000000 % 60
  let us := t.usod % 1000000
  String.mk (pad4L c.1.toNat ++ '-' :: pad2L c.2.1 ++ '-' :: pad2L c.2.2
    ++ 'T' :: pad2L h ++ ':' :: pad2L mi ++ ':' :: pad2L s
    ++ (if us = 0 then [] else '.' :: pad6L us))

/-- ISO-8601 parsing of the strings produced by `isoformat` (as
`datetime.fromisoformat` does on them): fixed-width fields with an optional
six-digit fractional part. -/
def parseIso (str : String) : Option Instant :=
  match str.data with
  | [y3, y2, y1, y0, c1, mo1, mo0, c2, d1, d0, c3, h1, h0, c4, mi1, mi0, c5, se1, se0] =>
      if isDigitC y3 && isDigitC y2 && isDigitC y1 && isDigitC y0 &&
          isDigitC mo1 && isDigitC mo0 && isDigitC d1 && isDigitC d0 &&
          isDigitC h1 && isDigitC h0 && isDigitC mi1 && isDigitC mi0 &&
          isDigitC se1 && isDigitC se0 &&
          (c1 == '-') && (c2 == '-') && (c3 == 'T') && (c4 == ':') && (c5 == ':') then
        some ⟨daysFromCivilZ
            ((dv y3 * 1000 + dv y2 * 100 + dv y1 * 10 + dv y0 : Nat) : Int)
            (dv mo1 * 10 + dv mo0) (dv d1 * 10 + dv d0),
          ((dv h1 * 10 + dv h0) * 60 + (dv mi1 * 10 + dv mi0)) * 60000000
            + (dv se1 * 10 + dv se0) * 1000000⟩
      else none
  | [y3, y2, y1, y0, c1, mo1, mo0, c2, d1, d0, c3, h1, h0, c4, mi1, mi0, c5, se1, se0,
      c6, u5, u4, u3, u2, u1, u0] =>
      if isDigitC y3 && isDigitC y2 && isDigitC y1 && isDigitC y0 &&
          isDigitC mo1 && isDigitC mo0 && isDigitC d1 && isDigitC d0 &&
          isDigitC h1 && isDigitC h0 && isDigitC mi1 && isDigitC mi0 &&
          isDigitC se1 && isDigitC se0 && isDigitC u5 && isDigitC u4 &&
          isDigitC u3 && isDigitC u2 && isDigitC u1 && isDigitC u0 &&
          (c1 == '-') && (c2 == '-') && (c3 == 'T') && (c4 == ':') && (c5 == ':') &&
          (c6 == '.') then
        some ⟨daysFromCivilZ
            ((dv y3 * 1000 + dv y2 * 100 + dv y1 * 10 + dv y0 : Nat) : Int)
            (dv mo1 * 10 + dv mo0) (dv d1 * 10 + dv d0),
          ((dv h1 * 10 + dv h0) * 60 + (dv mi1 * 10 + dv mi0)) * 60000000
            + (dv se1 * 10 + dv se0) * 1000000
            + (dv u5 * 100000 + dv u4 * 10000 + dv u3 * 1000 + dv u2 * 100
                + dv u1 * 10 + dv u0)⟩
      else none
  | _ => none

/-! Key generator: `generate_license_key` draws 12 symbols uniformly from the
36-symbol alphabet (`string.ascii_uppercase + string.digits`) and formats them as
`PRO-XXXX-XXXX-XXXX`.  The random source is modelled as a stream of draws,
each an index into the alphabet (as `random.choices` returns). -/

/-- The alphabet `string.ascii_uppercase + string.digits`. -/
def keyChars : List Char := ("ABCDEFGHIJKLMNOPQRSTUVWXYZ" ++ "0123456789").data

/-- One draw of `random.choices(chars, k=...)`: the character at the drawn index. -/
def pickChar (r : Fin 36) : Char := keyChars.getD r.val 'A'

/-- One group: `''.join(random.choices(chars, k=4))`, four successive draws. -/
def group4 (rand : Nat → Fin 36) (off : Nat) : List Char :=
  [pickChar (rand off), pickChar (rand (off + 1)), pickChar (rand (off + 2)),
    pickChar (rand (off + 3))]

/-- `generate_license_key`: three groups of four draws, joined with hyphens after
the literal prefix, as in `f"PRO-{'-'.join(parts)}"`. -/
def generate_license_key (rand : Nat → Fin 36) : String :=
  "PRO-" ++ String.intercalate "-"
    [String.mk (group4 rand 0), String.mk (group4 rand 4), String.mk (group4 rand 8)]

/-- A character of the class `[A-Z0-9]`. -/
def isKeyChar (c : Char) : Bool :=
  (decide ('A' ≤ c) && decide (c ≤ 'Z')) || (decide ('0' ≤ c) && decide (c ≤ '9'))

/-- Anchored match of `^PRO-[A-Z0-9]{4}-[A-Z0-9]{4}-[A-Z0-9]{4}$`: the literal
prefix, then three hyphen-separated groups of four class characters, and nothing
else. -/
def matchesKeyFormat (s : String) : Bool :=
  match s.data with
  | ['P', 'R', 'O', '-', a1, a2, a3, a4, '-', b1, b2, b3, b4, '-', c1, c2, c3, c4] =>
      isKeyChar a1 && isKeyChar a2 && isKeyChar a3 && isKeyChar a4 &&
        isKeyChar b1 && isKeyChar b2 && isKeyChar b3 && isKeyChar b4 &&
        isKeyChar c1 && isKeyChar c2 && isKeyChar c3 && isKeyChar c4
  | _ => false

/-! The issuance workflow of `scripts/generate_license.py`, embedded as a pure
function over explicit inputs: the environment variables, the random stream, the
current time, and the responses the two HTTP endpoints would give.  The observable
behaviour (printed lines, outbound HTTP requests, calls of `send_email`) is
collected in an effect trace, in program order. -/

/-- The two optional environment variables the script reads. -/
structure Env where
  SUPABASE_SERVICE_KEY : Option String
  RESEND_API_KEY : Option String
deriving DecidableEq

/-- Python truthiness of `os.environ.get(...)`: `None` and the empty string are
falsy. -/
def truthy : Option String → Bool
  | none => false
  | some s => !s.isEmpty

/-- An HTTP response: status code and body text. -/
structure Response where
  status_code : Nat
  text : String
deriving DecidableEq

/-- Outcome of a `requests.post` call: a response, or a transport-level
exception (carrying its message). -/
inductive NetResult where
  | ok : Response → NetResult
  | exn : String → NetResult
deriving DecidableEq

/-- The JSON record inserted into the `licenses` table. -/
structure Payload where
  license_key : String
  email : String
  status : String
  current_period_end : String
deriving DecidableEq

/-- The JSON body posted to the email provider. -/
structure EmailData where
  fromAddr : String
  toAddr : String
  subject : String
  html : String
deriving DecidableEq

/-- One observable step: a printed line, an HTTP POST to the store, an HTTP POST
to the email provider, or (instrumentation) an invocation of `send_email`. -/
inductive Effect where
  | print : String → Effect
  | postStore : Payload → Effect
  | postEmail : EmailData → Effect
  | callSendEmail : String → String → Effect
deriving DecidableEq

/-- `FROM_EMAIL` constant. -/
def FROM_EMAIL : String := "licenses@creenly.com"

/-- The HTML body of the notification email (the f-string in `send_email`). -/
def html_content (license_key : String) : String :=
  "\n    <h1>Welcome to Creenly!</h1>\n    <p>Thank you for your purchase.</p>\n    <p><strong>Your License Key:</strong></p>\n    <h2 style=\"font-family: monospace; background: #eee; padding: 10px;\">"
    ++ license_key
    ++ "</h2>\n    <p>Activate this key in the Settings panel of the Church Projector app.</p>\n    "

/-- `send_email(to_email, license_key)`: skipped (with a warning) when
`RESEND_API_KEY` is unset; otherwise posts to the provider once, reporting a
non-200 response or a transport exception without raising. -/
def send_email (env : Env) (emailNet : NetResult) (to_email license_key : String) :
    List Effect :=
  if !truthy env.RESEND_API_KEY then
    [.print "WARNING: RESEND_API_KEY not found. Skipping email.",
     .print ("Please manually send key " ++ license_key ++ " to " ++ to_email)]
  else
    let data : EmailData :=
      { fromAddr := FROM_EMAIL, toAddr := to_email,
        subject := "Your Creenly License Key", html := html_content license_key }
    .print "Sending email via Resend..." ::
      match emailNet with
      | .ok resp =>
          .postEmail data ::
            (if resp.status_code = 200 then [.print "Email sent successfully!"]
             else [.print ("Email failed: " ++ resp.text)])
      | .exn e => [.postEmail data, .print ("Email error: " ++ e)]

/-- Result of one invocation of `create_license`: its effect trace, the
exception that escaped it (if any), and its return value (always `None` in the
source, modelled as an `Option Payload` that is always `none`). -/
structure CreateResult where
  effects : List Effect
  uncaught : Option String
  retVal : Option Payload
deriving DecidableEq

/-- The expiration calculator:
`(datetime.datetime.utcnow() + timedelta(days=days_valid)).isoformat()`. -/
def compute_expiry (now : Instant) (validity_days : Int) : String :=
  isoformat (addDays now validity_days)

/-- The record `create_license` builds before posting. -/
def licensePayload (rand : Nat → Fin 36) (now : Instant) (days_valid : Int)
    (email : String) : Payload :=
  { license_key := generate_license_key rand,
    email := email,
    status := "active",
    current_period_end := compute_expiry now days_valid }

/-- `create_license(email, days_valid)`: fail fast when the store credential is
unset; otherwise build the record, post it to the store, and on a 200/201
response print the success details and call `send_email`; on any other response
print the store body; a transport exception from the store POST escapes. -/
def create_license (env : Env) (rand : Nat → Fin 36) (now : Instant)
    (storeNet emailNet : NetResult) (email : String) (days_valid : Int := 365) :
    CreateResult :=
  if !truthy env.SUPABASE_SERVICE_KEY then
    { effects :=
        [.print "ERROR: PROJECTOR_SUPABASE_SERVICE_KEY environment variable is not set.",
         .print "Please grab the \x27service_role\x27 secret from Supabase Dashboard > Settings > API."],
      uncaught := none, retVal := none }
  else
    let payload := licensePayload rand now days_valid email
    let pre := [Effect.print ("Creating license for " ++ email ++ "..."),
                Effect.postStore payload]
    match storeNet with
    | .exn e => { effects := pre, uncaught := some e, retVal := none }
    | .ok response =>
      if response.status_code = 200 ∨ response.status_code = 201 then
        { effects := pre
            ++ [.print "SUCCESS: License Created!",
                .print ("Key: " ++ payload.license_key),
                .print ("Expires: " ++ payload.current_period_end),
                .callSendEmail email payload.license_key]
            ++ send_email env emailNet email payload.license_key,
          uncaught := none, retVal := none }
      else
        { effects := pre ++ [.print ("FAILED to create license: " ++ response.text)],
          uncaught := none, retVal := none }

/-- Predicate: the effect is an outbound network call. -/
def isNetCall : Effect → Bool
  | .postStore _ => true
  | .postEmail _ => true
  | _ => false

/-- Predicate: the effect is a POST to the email provider. -/
def isPostEmail : Effect → Bool
  | .postEmail _ => true
  | _ => false

/-- Predicate: the effect records an invocation of `send_email` with the given
recipient and key. -/
def isCallSendEmail (to_email license_key : String) : Effect → Bool
  | .callSendEmail a b => a == to_email && b == license_key
  | _ => false

/-- Predicate: the effect records any invocation of `send_email`. -/
def isAnyCallSendEmail : Effect → Bool
  | .callSendEmail _ _ => true
  | _ => false

/-- Decimal value of a digit string (most significant first). -/
def digitsToNat (ds : List Char) : Nat := ds.foldl (fun a c => a * 10 + (c.toNat - 48)) 0

/-- Python `int(s)` on optionally signed decimal literals (simplified: no
whitespace or underscores); `none` models the `ValueError` it raises. -/
def parseIntPy (s : String) : Option Int :=
  match s.data with
  | '-' :: ds => if ds ≠ [] ∧ ds.all isDigitC then some (-(digitsToNat ds : Int)) else none
  | '+' :: ds => if ds ≠ [] ∧ ds.all isDigitC then some ((digitsToNat ds : Int)) else none
  | ds => if ds ≠ [] ∧ ds.all isDigitC then some ((digitsToNat ds : Int)) else none

/-- Result of running the script from the command line: effect trace, process
exit status, and the uncaught exception if one escaped. -/
structure MainResult where
  effects : List Effect
  exitCode : Nat
  uncaught : Option String
deriving DecidableEq

/-- The `days_valid` CLI argument: `int(sys.argv[2]) if len(sys.argv) > 2 else 365`. -/
def cliDays (argv : List String) : Option Int :=
  if 2 < argv.length then parseIntPy (argv.getD 2 "") else some 365

/-- The `__main__` block: usage message and exit status 1 when no email argument
is given; otherwise parse the optional `days_valid` argument (an unparsable one
raises, exiting nonzero) and run `create_license`; an exception escaping
`create_license` makes the interpreter exit nonzero, otherwise the process exits 0. -/
def main_run (env : Env) (rand : Nat → Fin 36) (now : Instant)
    (storeNet emailNet : NetResult) (argv : List String) : MainResult :=
  if argv.length < 2 then
    { effects := [.print "Usage: python generate_license.py <customer_email> [days_valid]"],
      exitCode := 1, uncaught := none }
  else
    let email := argv.getD 1 ""
    match cliDays argv with
    | none => { effects := [], exitCode := 1, uncaught := some "ValueError" }
    | some days =>
        let r := create_license env rand now storeNet emailNet email days
        { effects := r.effects, exitCode := if r.uncaught.isSome then 1 else 0,
          uncaught := r.uncaught }

theorem yoe_doy_facts (doe : Nat) (h : doe < 146097) :
    yoeOfDoe doe ≤ 399 ∧ doyOfDoe doe ≤ 365 ∧
      146097 * (yoeOfDoe doe / 100) / 4 + 1461 * (yoeOfDoe doe % 100) / 4
        + doyOfDoe doe = doe := by
  unfold yoeOfDoe doyOfDoe yofcOfDoe dcentOfDoe cOfDoe
  generalize hcdef : (4 * doe + 3) / 146097 = c
  generalize hfdef : doe - 146097 * c / 4 = f
  generalize hedef : (4 * f + 3) / 1461 = e
  have hcb : c ≤ 3 := by omega
  have hgle : 146097 * c / 4 ≤ doe := by omega
  have hfb : f ≤ 36524 := by omega
  have heb : e ≤ 99 := by omega
  have hq : (100 * c + e) / 100 = c := by omega
  have hr : (100 * c + e) % 100 = e := by omega
  have hile : 1461 * e / 4 ≤ f := by omega
  rw [hq, hr]
  omega

set_option maxRecDepth 4000 in
theorem okB_all : ∀ doy, doy ≤ 365 → okB doy = true := by decide

theorem monthDay_facts (doy : Nat) (h : doy ≤ 365) :
    (if 2 < mOfDoy doy then mOfDoy doy - 3 else mOfDoy doy + 9) = mpOfDoy doy ∧
      (153 * mpOfDoy doy + 2) / 5 + dOfDoy doy - 1 = doy ∧
      1 ≤ mOfDoy doy ∧ mOfDoy doy ≤ 12 ∧ 1 ≤ dOfDoy doy ∧ dOfDoy doy ≤ 31 := by
  have hB := okB_all doy h
  rw [okB] at hB
  simp only [Bool.and_eq_true, Nat.ble_eq, beq_iff_eq] at hB
  exact ⟨hB.1.1.1.1.1, hB.1.1.1.1.2, hB.1.1.1.2, hB.1.1.2, hB.1.2, hB.2⟩

theorem daysFromCivilZ_eval (E : Int) (yoe m d : Nat) (hyoe : yoe ≤ 399) :
    daysFromCivilZ
        (if m ≤ 2 then (yoe : Int) + E * 400 + 1 else (yoe : Int) + E * 400) m d
      = E * 146097
        + ((146097 * (yoe / 100) / 4 + 1461 * (yoe % 100) / 4
            + ((153 * (if 2 < m then m - 3 else m + 9) + 2) / 5 + d - 1) : Nat) : Int)
        - 719468 := by
  simp only [daysFromCivilZ]
  split_ifs with h1 h2 h2
  · omega
  · have e1 : ((yoe : Int) + E * 400 + 1 - 1) % 400 = (yoe : Int) := by omega
    have e2 : ((yoe : Int) + E * 400 + 1 - 1) / 400 = E := by omega
    rw [e1, e2]
    have e3 : ((yoe : Int)).toNat = yoe := by omega
    rw [e3]
  · have e1 : ((yoe : Int) + E * 400) % 400 = (yoe : Int) := by omega
    have e2 : ((yoe : Int) + E * 400) / 400 = E := by omega
    rw [e1, e2]
    have e3 : ((yoe : Int)).toNat = yoe := by omega
    rw [e3]
  · omega

/-- Converting a day count to a civil date and back is the identity. -/
theorem daysFromCivil_civilFromDays (z : Int) :
    daysFromCivilZ (civilFromDaysZ z).1 (civilFromDaysZ z).2.1 (civilFromDaysZ z).2.2 = z := by
  have hdoe : ((z + 719468) % 146097).toNat < 146097 := by omega
  have hF := yoe_doy_facts _ hdoe
  have hB := monthDay_facts (doyOfDoe ((z + 719468) % 146097).toNat) hF.2.1
  have hkey := daysFromCivilZ_eval ((z + 719468) / 146097)
      (yoeOfDoe ((z + 719468) % 146097).toNat)
      (mOfDoy (doyOfDoe ((z + 719468) % 146097).toNat))
      (dOfDoy (doyOfDoe ((z + 719468) % 146097).toNat)) hF.1
  show daysFromCivilZ
      (if mOfDoy (doyOfDoe ((z + 719468) % 146097).toNat) ≤ 2 then
        (yoeOfDoe ((z + 719468) % 146097).toNat : Int) + (z + 719468) / 146097 * 400 + 1
      else (yoeOfDoe ((z + 719468) % 146097).toNat : Int) + (z + 719468) / 146097 * 400)
      (mOfDoy (doyOfDoe ((z + 719468) % 146097).toNat))
      (dOfDoy (doyOfDoe ((z + 719468) % 146097).toNat)) = z
  rw [hkey, hB.1, hB.2.1]
  omega

theorem dv_digitChar : ∀ k, k < 10 → dv (digitChar k) = k := by decide

theorem isDigitC_digitChar : ∀ k, k < 10 → isDigitC (digitChar k) = true := by decide

theorem civil_year_nonneg (z : Int) (h : 0 ≤ z) : 0 ≤ (civilFromDaysZ z).1 := by
  simp only [civilFromDaysZ]
  split_ifs <;> omega

theorem civil_month_day_bounds (z : Int) :
    1 ≤ (civilFromDaysZ z).2.1 ∧ (civilFromDaysZ z).2.1 ≤ 12 ∧
      1 ≤ (civilFromDaysZ z).2.2 ∧ (civilFromDaysZ z).2.2 ≤ 31 := by
  have hdoe : ((z + 719468) % 146097).toNat < 146097 := by omega
  have hB := monthDay_facts (doyOfDoe ((z + 719468) % 146097).toNat)
    (yoe_doy_facts _ hdoe).2.1
  show 1 ≤ mOfDoy (doyOfDoe ((z + 719468) % 146097).toNat) ∧ _
  exact ⟨hB.2.2.1, hB.2.2.2.1, hB.2.2.2.2.1, hB.2.2.2.2.2⟩

theorem isDigitC_mod (n : Nat) : isDigitC (digitChar (n % 10)) = true :=
  isDigitC_digitChar (n % 10) (Nat.mod_lt n (by norm_num))

theorem dv_mod (n : Nat) : dv (digitChar (n % 10)) = n % 10 :=
  dv_digitChar (n % 10) (Nat.mod_lt n (by norm_num))

theorem parseIso_isoformat (t : Instant) (h0 : 0 ≤ t.day)
    (h9 : (civilFromDaysZ t.day).1 ≤ 9999) (hu : t.usod < 86400000000) :
    parseIso (isoformat t) = some t := by
  obtain ⟨td, tu⟩ := t
  simp only at h0 h9 hu
  obtain ⟨hm1, hm12, hd1, hd31⟩ := civil_month_day_bounds td
  have hy0 : 0 ≤ (civilFromDaysZ td).1 := civil_year_nonneg td h0
  have hrt := daysFromCivil_civilFromDays td
  have hyt : ((civilFromDaysZ td).1.toNat : Int) = (civilFromDaysZ td).1 :=
    Int.toNat_of_nonneg hy0
  have hyle : (civilFromDaysZ td).1.toNat ≤ 9999 := by omega
  by_cases hus : tu % 1000000 = 0
  · simp only [isoformat, pad4L, pad2L, pad6L, hus, if_pos, List.cons_append,
      List.nil_append, List.append_nil, if_true]
    simp only [parseIso, isDigitC_mod, dv_mod, Bool.and_true, Bool.true_and,
      beq_self_eq_true, if_true, reduceIte]
    simp only [Option.some.injEq, Instant.mk.injEq]
    constructor
    · have e1 : (civilFromDaysZ td).1.toNat / 1000 % 10 * 1000
          + (civilFromDaysZ td).1.toNat / 100 % 10 * 100
          + (civilFromDaysZ td).1.toNat / 10 % 10 * 10
          + (civilFromDaysZ td).1.toNat % 10 = (civilFromDaysZ td).1.toNat := by omega
      have e2 : (civilFromDaysZ td).2.1 / 10 % 10 * 10 + (civilFromDaysZ td).2.1 % 10
          = (civilFromDaysZ td).2.1 := by omega
      have e3 : (civilFromDaysZ td).2.2 / 10 % 10 * 10 + (civilFromDaysZ td).2.2 % 10
          = (civilFromDaysZ td).2.2 := by omega
      rw [e1, e2, e3, hyt]
      exact hrt
    · omega
  · simp only [isoformat, pad4L, pad2L, pad6L, hus, List.cons_append,
      List.nil_append, List.append_nil, if_false, reduceIte]
    simp only [parseIso, isDigitC_mod, dv_mod, Bool.and_true, Bool.true_and,
      beq_self_eq_true, if_true, reduceIte]
    simp only [Option.some.injEq, Instant.mk.injEq]
    constructor
    · have e1 : (civilFromDaysZ td).1.toNat / 1000 % 10 * 1000
          + (civilFromDaysZ td).1.toNat / 100 % 10 * 100
          + (civilFromDaysZ td).1.toNat / 10 % 10 * 10
          + (civilFromDaysZ td).1.toNat % 10 = (civilFromDaysZ td).1.toNat := by omega
      have e2 : (civilFromDaysZ td).2.1 / 10 % 10 * 10 + (civilFromDaysZ td).2.1 % 10
          = (civilFromDaysZ td).2.1 := by omega
      have e3 : (civilFromDaysZ td).2.2 / 10 % 10 * 10 + (civilFromDaysZ td).2.2 % 10
          = (civilFromDaysZ td).2.2 := by omega
      rw [e1, e2, e3, hyt]
      exact hrt
    · omega

theorem pickChar_isKey : ∀ r : Fin 36, isKeyChar (pickChar r) = true := by decide

theorem send_email_no_marker (env : Env) (emailNet : NetResult)
    (to_email license_key a b : String) :
    (send_email env emailNet to_email license_key).countP (isCallSendEmail a b) = 0 := by
  rcases emailNet with r | e <;>
    simp only [send_email] <;>
    split_ifs <;>
    simp [isCallSendEmail, List.countP_cons]

theorem send_email_skip_no_net (env : Env) (emailNet : NetResult)
    (to_email license_key : String) (h : truthy env.RESEND_API_KEY = false) :
    (send_email env emailNet to_email license_key).countP isPostEmail = 0 := by
  simp [send_email, h, isPostEmail, List.countP_cons]

/-- Claim C5: every string returned by `generate_license_key` matches `^PRO-[A-Z0-9]\x7b4\x7d-[A-Z0-9]\x7b4\x7d-[A-Z0-9]\x7b4\x7d$`: the literal prefix `PRO-` followed by three hyphen-separated groups of four characters drawn from the 36-symbol alphabet `A`..`Z`, `0`..`9`. -/
theorem generate_license_key_format (rand : Nat → Fin 36) :
    matchesKeyFormat (generate_license_key rand) = true := by
  simp only [generate_license_key, String.intercalate, String.intercalate.go, group4]
  simp [matchesKeyFormat, String.data_append, List.cons_append, List.nil_append,
    pickChar_isKey]

/-- Claim C1: when the store credential is configured and the Persistent Store responds with any HTTP status other than 200 or 201, `create_license` ends with the failure message carrying the store response body verbatim, `send_email` is never invoked, and no call to the Email Provider is made. -/
theorem c1_store_rejection (env : Env) (rand : Nat → Fin 36) (now : Instant)
    (emailNet : NetResult) (email : String) (days_valid : Int) (r : Response)
    (hkey : truthy env.SUPABASE_SERVICE_KEY = true)
    (h200 : r.status_code ≠ 200) (h201 : r.status_code ≠ 201) :
    (create_license env rand now (.ok r) emailNet email days_valid).effects
        = [.print ("Creating license for " ++ email ++ "..."),
           .postStore (licensePayload rand now days_valid email),
           .print ("FAILED to create license: " ++ r.text)] ∧
      (create_license env rand now (.ok r) emailNet email days_valid).effects.countP
          isAnyCallSendEmail = 0 ∧
      (create_license env rand now (.ok r) emailNet email days_valid).effects.countP
          isPostEmail = 0 := by
  simp [create_license, hkey, h200, h201, isAnyCallSendEmail, isPostEmail,
    List.countP_cons]

/-- Claim C2: when the Persistent Store responds with HTTP 200 or 201, the record is posted and `send_email` is invoked exactly once, with the same email and the same license key that were placed in the persisted record. -/
theorem c2_store_success_notifies_once (env : Env) (rand : Nat → Fin 36)
    (now : Instant) (emailNet : NetResult) (email : String) (days_valid : Int)
    (r : Response) (hkey : truthy env.SUPABASE_SERVICE_KEY = true)
    (hst : r.status_code = 200 ∨ r.status_code = 201) :
    Effect.postStore (licensePayload rand now days_valid email)
        ∈ (create_license env rand now (.ok r) emailNet email days_valid).effects ∧
      (create_license env rand now (.ok r) emailNet email days_valid).effects.countP
          (isCallSendEmail (licensePayload rand now days_valid email).email
            (licensePayload rand now days_valid email).license_key) = 1 ∧
      (licensePayload rand now days_valid email).email = email ∧
      (licensePayload rand now days_valid email).license_key
        = generate_license_key rand := by
  refine ⟨?_, ?_, rfl, rfl⟩
  · simp [create_license, hkey, hst]
  · simp [create_license, hkey, hst, List.countP_cons, List.countP_append,
      send_email_no_marker, isCallSendEmail, licensePayload]

/-- Claim C3: with the Persistent Store credential unconfigured, `create_license` only prints the configuration error and performs zero network calls, to the store or to the Email Provider. -/
theorem c3_missing_store_credential (env : Env) (rand : Nat → Fin 36)
    (now : Instant) (storeNet emailNet : NetResult) (email : String)
    (days_valid : Int) (hkey : truthy env.SUPABASE_SERVICE_KEY = false) :
    create_license env rand now storeNet emailNet email days_valid
        = { effects :=
              [.print "ERROR: PROJECTOR_SUPABASE_SERVICE_KEY environment variable is not set.",
               .print "Please grab the \x27service_role\x27 secret from Supabase Dashboard > Settings > API."],
            uncaught := none, retVal := none } ∧
      (create_license env rand now storeNet emailNet email days_valid).effects.countP
          isNetCall = 0 := by
  constructor
  · simp [create_license, hkey]
  · simp [create_license, hkey, isNetCall, List.countP_cons]

/-- Claim C4: after a successful persist, a notification failure never changes the outcome: no exception escapes; with the email credential missing, dispatch is skipped with no call to the Email Provider while the success effects stand; a non-200 provider response or a transport exception is reported through a printed message only. -/
theorem c4_notification_never_fatal (env : Env) (rand : Nat → Fin 36)
    (now : Instant) (emailNet : NetResult) (email : String) (days_valid : Int)
    (r : Response) (hkey : truthy env.SUPABASE_SERVICE_KEY = true)
    (hst : r.status_code = 200 ∨ r.status_code = 201) :
    (create_license env rand now (.ok r) emailNet email days_valid).uncaught = none ∧
      Effect.print "SUCCESS: License Created!"
        ∈ (create_license env rand now (.ok r) emailNet email days_valid).effects ∧
      Effect.postStore (licensePayload rand now days_valid email)
        ∈ (create_license env rand now (.ok r) emailNet email days_valid).effects ∧
      (truthy env.RESEND_API_KEY = false →
        (create_license env rand now (.ok r) emailNet email days_valid).effects.countP
            isPostEmail = 0 ∧
          Effect.print "WARNING: RESEND_API_KEY not found. Skipping email."
            ∈ (create_license env rand now (.ok r) emailNet email days_valid).effects) ∧
      (∀ er : Response, truthy env.RESEND_API_KEY = true → emailNet = .ok er →
        er.status_code ≠ 200 →
        Effect.print ("Email failed: " ++ er.text)
          ∈ (create_license env rand now (.ok r) emailNet email days_valid).effects) ∧
      (∀ e2 : String, truthy env.RESEND_API_KEY = true → emailNet = .exn e2 →
        Effect.print ("Email error: " ++ e2)
          ∈ (create_license env rand now (.ok r) emailNet email days_valid).effects) := by
  refine ⟨?_, ?_, ?_, ?_, ?_, ?_⟩
  · simp [create_license, hkey, hst]
  · simp [create_license, hkey, hst]
  · simp [create_license, hkey, hst]
  · intro hre
    constructor
    · simp [create_license, hkey, hst, isPostEmail, List.countP_cons,
        List.countP_append, send_email_skip_no_net _ _ _ _ hre]
    · simp [create_license, hkey, hst, send_email, hre]
  · rintro er hre rfl h200
    simp [create_license, hkey, hst, send_email, hre, h200]
  · rintro e2 hre rfl
    simp [create_license, hkey, hst, send_email, hre]

/-- Claim C6: for positive `d`, the computed `current_period_end` is exactly `d` days (in microseconds) after the creation instant, and ISO-8601 parsing of the serialized string recovers the same instant, within the representable range of Python datetimes (nonnegative day ordinal, time of day in range, resulting year at most 9999). -/
theorem c6_expiry_exact_and_roundtrip (now : Instant) (d : Int) (hd : 0 < d)
    (h0 : 0 ≤ now.day) (hu : now.usod < 86400000000)
    (h9 : (civilFromDaysZ (now.day + d)).1 ≤ 9999) :
    toMicros (addDays now d) = toMicros now + d * 86400000000 ∧
      parseIso (compute_expiry now d) = some (addDays now d) := by
  constructor
  · simp [toMicros, addDays]
    ring
  · exact parseIso_isoformat (addDays now d) (by simp [addDays]; omega) h9 hu

/-- Claim C7: the computed expiration is strictly later than the creation instant exactly when `validity_days` is positive; zero yields an identical instant and a negative value an earlier one, silently (no guard exists). -/
theorem c7_expiry_ordering (now : Instant) (d : Int) :
    (0 < d → toMicros now < toMicros (addDays now d)) ∧
      (d = 0 → toMicros (addDays now d) = toMicros now) ∧
      (d < 0 → toMicros (addDays now d) < toMicros now) := by
  refine ⟨?_, ?_, ?_⟩ <;> intro h <;> simp [toMicros, addDays] <;> nlinarith [h]

/-- Claim C8 counterexample: with a valid email argument, the script exits with status 0 both when the store credential is missing and when the store rejects the write, contradicting the claimed non-zero exit status. -/
theorem c8_counterexample :
    (main_run ⟨none, none⟩ (fun _ => 0) ⟨0, 0⟩ (.ok ⟨201, ""⟩) (.ok ⟨200, ""⟩)
        ["generate_license.py", "buyer@example.com"]).exitCode = 0 ∧
      (main_run ⟨some "k", none⟩ (fun _ => 0) ⟨0, 0⟩ (.ok ⟨500, "error"⟩) (.ok ⟨200, ""⟩)
        ["generate_license.py", "buyer@example.com"]).exitCode = 0 := by
  constructor <;> rfl

/-- Claim C8 (amended): the command-line surface exits 1 with a usage message only when the email argument is missing; when the store credential is missing or the store write fails it produces the failure message but exits 0; on success it exits 0 and prints the key and the expiration. -/
theorem c8_cli_behaviour (env : Env) (rand : Nat → Fin 36) (now : Instant)
    (storeNet emailNet : NetResult) (argv : List String) :
    (argv.length < 2 →
      main_run env rand now storeNet emailNet argv
        = { effects := [.print "Usage: python generate_license.py <customer_email> [days_valid]"],
            exitCode := 1, uncaught := none }) ∧
      (∀ dval : Int, 2 ≤ argv.length → cliDays argv = some dval →
        truthy env.SUPABASE_SERVICE_KEY = false →
        (main_run env rand now storeNet emailNet argv).exitCode = 0 ∧
          Effect.print "ERROR: PROJECTOR_SUPABASE_SERVICE_KEY environment variable is not set."
            ∈ (main_run env rand now storeNet emailNet argv).effects) ∧
      (∀ (dval : Int) (r : Response), 2 ≤ argv.length → cliDays argv = some dval →
        truthy env.SUPABASE_SERVICE_KEY = true → storeNet = .ok r →
        r.status_code ≠ 200 → r.status_code ≠ 201 →
        (main_run env rand now storeNet emailNet argv).exitCode = 0 ∧
          Effect.print ("FAILED to create license: " ++ r.text)
            ∈ (main_run env rand now storeNet emailNet argv).effects) ∧
      (∀ (dval : Int) (r : Response), 2 ≤ argv.length → cliDays argv = some dval →
        truthy env.SUPABASE_SERVICE_KEY = true → storeNet = .ok r →
        (r.status_code = 200 ∨ r.status_code = 201) →
        (main_run env rand now storeNet emailNet argv).exitCode = 0 ∧
          Effect.print ("Key: " ++ generate_license_key rand)
            ∈ (main_run env rand now storeNet emailNet argv).effects ∧
          Effect.print ("Expires: " ++ compute_expiry now dval)
            ∈ (main_run env rand now storeNet emailNet argv).effects) := by
  refine ⟨?_, ?_, ?_, ?_⟩
  · intro h
    simp [main_run, h]
  · intro dval hlen hdays hkey
    have hnl : ¬argv.length < 2 := by omega
    constructor <;>
      simp [main_run, hnl, hdays, create_license, hkey]
  · rintro dval r hlen hdays hkey rfl h200 h201
    have hnl : ¬argv.length < 2 := by omega
    constructor <;>
      simp [main_run, hnl, hdays, create_license, hkey, h200, h201]
  · rintro dval r hlen hdays hkey rfl hst
    have hnl : ¬argv.length < 2 := by omega
    refine ⟨?_, ?_, ?_⟩ <;>
      simp [main_run, hnl, hdays, create_license, hkey, hst, licensePayload,
        compute_expiry]

/-- Claim C9: `create_license` returns `None` on every path, and on the missing-credential, store-rejection and successful-issuance paths no exception escapes either, so success and failure are distinguishable only through printed output. -/
theorem c9_returns_none (env : Env) (rand : Nat → Fin 36) (now : Instant)
    (storeNet emailNet : NetResult) (email : String) (days_valid : Int) :
    (create_license env rand now storeNet emailNet email days_valid).retVal = none ∧
      (truthy env.SUPABASE_SERVICE_KEY = false →
        (create_license env rand now storeNet emailNet email days_valid).uncaught = none) ∧
      (∀ r : Response, storeNet = .ok r →
        (create_license env rand now storeNet emailNet email days_valid).uncaught = none) := by
  refine ⟨?_, ?_, ?_⟩
  · rcases storeNet with r | e <;> simp [create_license] <;> split_ifs <;> simp
  · intro h
    simp [create_license, h]
  · rintro r rfl
    simp [create_license]
    split_ifs <;> simp

/-- Claim C10: a transport-level exception raised by the store POST propagates uncaught out of `create_license` (after the post was attempted), whereas a transport exception from the Email Provider call after a successful persist is caught and does not escape. -/
theorem c10_store_exception_escapes (env : Env) (rand : Nat → Fin 36)
    (now : Instant) (emailNet : NetResult) (email : String) (days_valid : Int)
    (e : String) (hkey : truthy env.SUPABASE_SERVICE_KEY = true) :
    (create_license env rand now (.exn e) emailNet email days_valid).uncaught = some e ∧
      Effect.postStore (licensePayload rand now days_valid email)
        ∈ (create_license env rand now (.exn e) emailNet email days_valid).effects ∧
      (∀ (r : Response) (e2 : String), r.status_code = 200 ∨ r.status_code = 201 →
        (create_license env rand now (.ok r) (.exn e2) email days_valid).uncaught
          = none) := by
  refine ⟨?_, ?_, ?_⟩
  · simp [create_license, hkey]
  · simp [create_license, hkey]
  · intro r e2 hst
    simp [create_license, hkey, hst]

theorem c1_witness :
    (create_license ⟨some "k", none⟩ (fun _ => 0) ⟨0, 0⟩ (.ok ⟨409, "dup"⟩)
        (.ok ⟨200, ""⟩) "a@b.c" 365).effects.countP isAnyCallSendEmail = 0 :=
  (c1_store_rejection ⟨some "k", none⟩ (fun _ => 0) ⟨0, 0⟩ (.ok ⟨200, ""⟩)
    "a@b.c" 365 ⟨409, "dup"⟩ (by decide) (by decide) (by decide)).2.1

theorem c2_witness :
    (create_license ⟨some "k", none⟩ (fun _ => 0) ⟨0, 0⟩ (.ok ⟨201, ""⟩)
        (.ok ⟨200, ""⟩) "a@b.c" 365).effects.countP
      (isCallSendEmail (licensePayload (fun _ => 0) ⟨0, 0⟩ 365 "a@b.c").email
        (licensePayload (fun _ => 0) ⟨0, 0⟩ 365 "a@b.c").license_key) = 1 :=
  (c2_store_success_notifies_once ⟨some "k", none⟩ (fun _ => 0) ⟨0, 0⟩
    (.ok ⟨200, ""⟩) "a@b.c" 365 ⟨201, ""⟩ (by decide) (Or.inr rfl)).2.1

theorem c3_witness :
    (create_license ⟨none, none⟩ (fun _ => 0) ⟨0, 0⟩ (.ok ⟨201, ""⟩)
        (.ok ⟨200, ""⟩) "a@b.c" 365).effects.countP isNetCall = 0 :=
  (c3_missing_store_credential ⟨none, none⟩ (fun _ => 0) ⟨0, 0⟩ (.ok ⟨201, ""⟩)
    (.ok ⟨200, ""⟩) "a@b.c" 365 (by decide)).2

theorem c4_witness :
    (create_license ⟨some "k", none⟩ (fun _ => 0) ⟨0, 0⟩ (.ok ⟨201, ""⟩)
        (.ok ⟨500, "err"⟩) "a@b.c" 365).uncaught = none ∧
      (create_license ⟨some "k", none⟩ (fun _ => 0) ⟨0, 0⟩ (.ok ⟨201, ""⟩)
          (.ok ⟨500, "err"⟩) "a@b.c" 365).effects.countP isPostEmail = 0 :=
  ⟨(c4_notification_never_fatal ⟨some "k", none⟩ (fun _ => 0) ⟨0, 0⟩
      (.ok ⟨500, "err"⟩) "a@b.c" 365 ⟨201, ""⟩ (by decide) (Or.inr rfl)).1,
    ((c4_notification_never_fatal ⟨some "k", none⟩ (fun _ => 0) ⟨0, 0⟩
      (.ok ⟨500, "err"⟩) "a@b.c" 365 ⟨201, ""⟩ (by decide) (Or.inr rfl)).2.2.2.1
      (by decide)).1⟩

theorem c6_witness :
    parseIso (compute_expiry ⟨0, 0⟩ 30) = some (addDays ⟨0, 0⟩ 30) :=
  (c6_expiry_exact_and_roundtrip ⟨0, 0⟩ 30 (by decide) (by decide) (by decide)
    (by decide)).2

theorem c7_witness :
    toMicros ⟨0, 0⟩ < toMicros (addDays ⟨0, 0⟩ 5) ∧
      toMicros (addDays ⟨10, 3⟩ 0) = toMicros ⟨10, 3⟩ ∧
      toMicros (addDays ⟨10, 3⟩ (-2)) < toMicros ⟨10, 3⟩ :=
  ⟨(c7_expiry_ordering ⟨0, 0⟩ 5).1 (by decide),
    (c7_expiry_ordering ⟨10, 3⟩ 0).2.1 rfl,
    (c7_expiry_ordering ⟨10, 3⟩ (-2)).2.2 (by decide)⟩

theorem c8_witness :
    (main_run ⟨none, none⟩ (fun _ => 0) ⟨0, 0⟩ (.ok ⟨201, ""⟩) (.ok ⟨200, ""⟩)
        ["generate_license.py", "a@b.c"]).exitCode = 0 ∧
      Effect.print "ERROR: PROJECTOR_SUPABASE_SERVICE_KEY environment variable is not set."
        ∈ (main_run ⟨none, none⟩ (fun _ => 0) ⟨0, 0⟩ (.ok ⟨201, ""⟩) (.ok ⟨200, ""⟩)
            ["generate_license.py", "a@b.c"]).effects :=
  (c8_cli_behaviour ⟨none, none⟩ (fun _ => 0) ⟨0, 0⟩ (.ok ⟨201, ""⟩) (.ok ⟨200, ""⟩)
    ["generate_license.py", "a@b.c"]).2.1 365 (by decide) (by decide) (by decide)

theorem c9_witness :
    (create_license ⟨none, none⟩ (fun _ => 0) ⟨0, 0⟩ (.ok ⟨201, ""⟩) (.ok ⟨200, ""⟩)
        "a@b.c" 365).retVal = none ∧
      (create_license ⟨none, none⟩ (fun _ => 0) ⟨0, 0⟩ (.ok ⟨201, ""⟩) (.ok ⟨200, ""⟩)
          "a@b.c" 365).uncaught = none :=
  ⟨(c9_returns_none ⟨none, none⟩ (fun _ => 0) ⟨0, 0⟩ (.ok ⟨201, ""⟩) (.ok ⟨200, ""⟩)
      "a@b.c" 365).1,
    (c9_returns_none ⟨none, none⟩ (fun _ => 0) ⟨0, 0⟩ (.ok ⟨201, ""⟩) (.ok ⟨200, ""⟩)
      "a@b.c" 365).2.1 (by decide)⟩

theorem c10_witness :
    (create_license ⟨some "k", none⟩ (fun _ => 0) ⟨0, 0⟩ (.exn "boom")
        (.ok ⟨200, ""⟩) "a@b.c" 365).uncaught = some "boom" :=
  (c10_store_exception_escapes ⟨some "k", none⟩ (fun _ => 0) ⟨0, 0⟩
    (.ok ⟨200, ""⟩) "a@b.c" 365 "boom" (by decide)).1
